import Mathlib

/-!
Verification of the membership lifecycle analytics engine of the
`skool_data` repository (`src/hud2.py`, `src/hud2_charts.py`).

The Python functions are embedded shallowly:
* calendar dates handled only by day-level comparison and a fixed
  30-day offset (`churn_count_past_30`) are embedded as epoch-day
  integers (`Int`), so `now - timedelta(days=30)` becomes `now - 30`
  and date comparison becomes integer comparison;
* dates whose year/month structure matters
  (`get_total_rev_ytd_recurring_only`, `generate_cohort_retention_table`,
  `calculate_monthly_metrics`) are embedded as `Date` triples with the
  lexicographic order that Python `datetime.date` comparison induces;
* Python floats for money are embedded as exact rationals `ℚ`, and the
  real-valued growth model (`math.log`) as `ℝ`;
* nullable fields are `Option`, Python exceptions are `Except Unit`.
-/

/-- A calendar date `(year, month, day)`.  Python `datetime.date`
comparison is lexicographic on this triple. -/
structure Date where
  year : Int
  month : Int
  day : Int
deriving DecidableEq, Repr

/-- `a <= b` for Python `datetime.date` values: lexicographic order. -/
def dateLE (a b : Date) : Bool :=
  decide (a.year < b.year ∨ (a.year = b.year ∧
    (a.month < b.month ∨ (a.month = b.month ∧ a.day ≤ b.day))))

/-- `a < b` for Python `datetime.date` values: strict lexicographic order. -/
def dateLT (a b : Date) : Bool :=
  decide (a.year < b.year ∨ (a.year = b.year ∧
    (a.month < b.month ∨ (a.month = b.month ∧ a.day < b.day))))

/-! ## Churn over a 30-day window (`hud2.py`, `churn_count_past_30`)

`churn_count_past_30` only ever compares whole dates and subtracts a
fixed `timedelta(days=30)`, so here a date is an epoch-day integer.
A member as seen by that function carries a nullable parsed
`joined_at`/`exited_at` (the formatted members always hold either
`None` or an ISO `YYYY-MM-DD` string produced by the normalizer) and a
`plan_type` string. -/

structure CMember where
  joined_at : Option Int
  exited_at : Option Int
  plan_type : String
deriving DecidableEq, Repr

/-- The denominator test of `churn_count_past_30`: present at the start
of the window (`joined_at <= days_ago_30` and (`exited_at` null or
`exited_at > days_ago_30`)), optionally restricted to non-annual. -/
def inStarting (noAnnual : Bool) (daysAgo30 : Int) (m : CMember) : Bool :=
  (match m.joined_at with
   | some j => decide (j ≤ daysAgo30)
   | none => false)
  && (match m.exited_at with
      | some e => decide (daysAgo30 < e)
      | none => true)
  && (!noAnnual || decide (m.plan_type ≠ "annual"))

/-- The numerator test of `churn_count_past_30`: exited during the
window, `days_ago_30 <= exited_at <= now` (both ends inclusive in the
source), optionally restricted to non-annual. -/
def inChurned (noAnnual : Bool) (daysAgo30 now : Int) (m : CMember) : Bool :=
  (match m.exited_at with
   | some e => decide (daysAgo30 ≤ e ∧ e ≤ now)
   | none => false)
  && (!noAnnual || decide (m.plan_type ≠ "annual"))

/-- `churn_count_past_30(formatted_members, no_annual)` from `hud2.py`.
The wall-clock read `datetime.now(timezone.utc).date()` is threaded in
as the explicit argument `now`; `days_ago_30 = now - timedelta(days=30)`.
Returns `len(churned) / len(starting) * 100` and `0` when `starting`
is empty. -/
def churn_count_past_30 (members : List CMember) (noAnnual : Bool) (now : Int) : ℚ :=
  let daysAgo30 := now - 30
  let starting := members.filter (inStarting noAnnual daysAgo30)
  let churned := members.filter (inChurned noAnnual daysAgo30 now)
  if starting.length = 0 then 0
  else (churned.length : ℚ) / (starting.length : ℚ) * 100

/-! ## Plan resolution (`hud2.py`, `get_plan_type_price_and_mrr`)

A billing product as read by the source: `bp.get("interval", "unknown")`
is modelled by `interval : Option String` (a missing key is `none`,
replaced by `"unknown"`), and the `float(bp.get("price", 0))` attempt by
`price : Option ℚ` (`none` models a value `float` rejects; a missing key
yields `0`, which parses, hence `some 0`). -/

structure BillingProduct where
  interval : Option String
  price : Option ℚ
deriving DecidableEq, Repr

/-- `get_plan_type_price_and_mrr(member, billing_products)` from
`hud2.py`, with `member["member"]["billingProductId"]` passed as
`billing_product_id` (Python falsy values `None` and `""` both fail the
guard; a falsy/empty table likewise).  The billing-product dict is a
key-value list looked up with `List.lookup`. -/
def get_plan_type_price_and_mrr (billing_product_id : Option String)
    (billing_products : List (String × BillingProduct)) : String × ℚ × ℚ :=
  match billing_product_id with
  | some bpid =>
    if bpid ≠ "" ∧ billing_products ≠ [] then
      match billing_products.lookup bpid with
      | some bp =>
        let interval := bp.interval.getD "unknown"
        let plan_type :=
          if interval = "year" ∨ interval = "annual" then "annual"
          else if interval = "month" ∨ interval = "monthly" then "monthly"
          else if interval = "one_time" ∨ interval = "one-time" then "one_time"
          else "unknown"
        let price := bp.price.getD 0
        let mrr :=
          if plan_type = "annual" then price / 12
          else if plan_type = "monthly" then price
          else 0
        (plan_type, price, mrr)
      | none => ("unknown", 0, 0)
    else ("unknown", 0, 0)
  | none => ("unknown", 0, 0)

/-! ## Growth ceiling projector (`hud2.py`, `calculate_growth_metrics`)

The projector works on Python floats and `math.log`; it is embedded
over `ℝ` with `Real.log`.  `None` outputs become `none`. -/

structure GrowthMetrics where
  member_ceiling : Option ℝ
  growth_rate : ℝ
  mrr_ceiling : Option ℝ
  potential_max_revenue : Option ℝ
  days_to_growth_ceiling : Option ℝ
  days_to_member_ceiling : Option ℝ
  months_to_growth_ceiling : Option ℝ

/-- The inner `time_to_pct_ceiling(pct)` of `calculate_growth_metrics`:
returns `0` when the ceiling is `0` or the current count already meets
or exceeds the *full* ceiling, returns `0` when the log ratio is not
positive, and otherwise `-log(ratio) / churn_rate` with
`ratio = (ceiling - pct*ceiling) / (ceiling - current_members)`. -/
noncomputable def time_to_pct_ceiling
    (member_ceiling current_members churn_rate pct : ℝ) : ℝ :=
  if member_ceiling = 0 ∨ current_members ≥ member_ceiling then 0
  else if (member_ceiling - pct * member_ceiling) /
      (member_ceiling - current_members) ≤ 0 then 0
  else -Real.log ((member_ceiling - pct * member_ceiling) /
      (member_ceiling - current_members)) / churn_rate

/-- `calculate_growth_metrics` from `hud2.py`.  The source's keyword
defaults `ceiling_pct_growth=0.95`, `ceiling_pct_member=0.99` and
`new_members_in_last_30d=0` are explicit arguments here; the last one
is accepted but unused, exactly as in the source. -/
noncomputable def calculate_growth_metrics
    (current_members monthly_acquisition monthly_churn_count churn_rate
     average_price ceiling_pct_growth ceiling_pct_member
     new_members_in_last_30d : ℝ) : GrowthMetrics :=
  if churn_rate = 0 then
    { member_ceiling := none
      growth_rate := 0
      mrr_ceiling := none
      potential_max_revenue := none
      days_to_growth_ceiling := none
      days_to_member_ceiling := none
      months_to_growth_ceiling := none }
  else
    let member_ceiling := monthly_acquisition / churn_rate
    let mrr_ceiling := member_ceiling * average_price
    let potential_max_revenue := mrr_ceiling * 12
    let growth_rate :=
      if current_members > 0 then
        (monthly_acquisition - monthly_churn_count) / current_members
      else 0
    let months_to_growth_ceiling :=
      time_to_pct_ceiling member_ceiling current_members churn_rate
        ceiling_pct_growth
    { member_ceiling := some member_ceiling
      growth_rate := growth_rate
      mrr_ceiling := some mrr_ceiling
      potential_max_revenue := some potential_max_revenue
      days_to_growth_ceiling := some (months_to_growth_ceiling * 30.44)
      days_to_member_ceiling := some
        (time_to_pct_ceiling member_ceiling current_members churn_rate
          ceiling_pct_member * 30.44)
      months_to_growth_ceiling := some months_to_growth_ceiling }

/-! ## Year-to-date recurring revenue (`hud2.py`,
`get_total_rev_ytd_recurring_only`)

A canonical member as produced by the normalizer and read by this
calculator: parsed nullable dates, plan type, price and mrr. -/

structure Member where
  joined_at : Option Date
  exited_at : Option Date
  mrr : ℚ
  price : ℚ
  plan_type : String
deriving DecidableEq, Repr

/-- Python `max(a, b)` on two dates. -/
def dmax (a b : Date) : Date := if dateLE a b then b else a

/-- One iteration of the loop of `get_total_rev_ytd_recurring_only`:
the revenue this member adds to `total_rev`.  `now = datetime.now().date()`
is threaded in explicitly; each `continue` becomes a `0` contribution;
the source's sequence of reassignments of `month_count` is the cascade
`mc0 … mc5` below, in source order, so the last matching condition
wins. -/
def ytdContribution (now : Date) (m : Member) : ℚ :=
  match m.joined_at with
  | none => 0
  | some j =>
    let firstOfYear : Date := ⟨now.year, 1, 1⟩
    if m.plan_type = "annual" then
      if dateLE j now &&
          (match m.exited_at with
           | none => true
           | some e => dateLE firstOfYear e) then m.price else 0
    else if m.mrr = 0 then 0
    else
      let start := dmax j firstOfYear
      let endD := match m.exited_at with
        | some e => if e.year = now.year then e else now
        | none => now
      if endD.year < now.year then 0
      else if start.year > now.year then 0
      else
        let mc0 := (endD.year - start.year) * 12 + (endD.month - start.month) + 1
        let mc1 := if j.year < now.year then endD.month else mc0
        let mc2 := match m.exited_at with
          | some e => if e.year = now.year ∧ j.year < now.year then e.month else mc1
          | none => mc1
        let mc3 := match m.exited_at with
          | some e => if e.year = now.year ∧ j.year = now.year then
              e.month - j.month + 1 else mc2
          | none => mc2
        let mc4 := if m.exited_at = none ∧ j.year = now.year then
            now.month - j.month + 1 else mc3
        let mc5 := if m.exited_at = none ∧ j.year < now.year then
            now.month else mc4
        m.mrr * ((max 0 mc5 : ℤ) : ℚ)

/-- `get_total_rev_ytd_recurring_only(members)` from `hud2.py`: the sum
of the per-member contributions. -/
def get_total_rev_ytd_recurring_only (members : List Member) (now : Date) : ℚ :=
  (members.map (ytdContribution now)).sum

/-! ## Cohort retention (`hud2.py`, `generate_cohort_retention_table`)

The builder re-parses `joined_at`/`exited_at` with
`strptime("%Y-%m-%d")`; a field is therefore null, an unparseable
string (the `except: continue` paths), or a parsed date. -/

inductive TS
  | null
  | bad
  | ok (d : Date)
deriving DecidableEq, Repr

/-- A formatted member as consumed by the cohort builder and the
monthly time-series builder. -/
structure FMember where
  joined_at : TS
  exited_at : TS
  mrr : ℚ
  price : ℚ
deriving DecidableEq, Repr

/-- `datetime.strptime(cohort_month + "-01", "%Y-%m-%d") +
relativedelta(months=n)`: the first day of the month `n` months after
month `(y, m)`; for `1 ≤ m ≤ 12` and `n ≥ 0` this is exactly
`relativedelta` month arithmetic. -/
def firstOfMonthAdd (y m n : Int) : Date :=
  ⟨y + Int.ediv (m - 1 + n) 12, Int.emod (m - 1 + n) 12 + 1, 1⟩

/-- Python `round(x, 0)`-style banker's rounding (round half to even)
on exact rationals, modelling `round` on the float values the source
produces. -/
def roundHalfEven (q : ℚ) : Int :=
  let f := Int.floor q
  let frac := q - (f : ℚ)
  if frac < 1 / 2 then f
  else if 1 / 2 < frac then f + 1
  else if f % 2 = 0 then f else f + 1

/-- Python `round(x, 2)`. -/
def round2 (q : ℚ) : ℚ := (roundHalfEven (q * 100) : ℚ) / 100

/-- The members grouped into cohort `(y, m)`: those whose `joined_at`
parses and falls in that year-month. -/
def cohortMembers (members : List FMember) (y m : Int) : List FMember :=
  members.filter (fun mem => match mem.joined_at with
    | TS.ok d => decide (d.year = y ∧ d.month = m)
    | _ => false)

/-- The retained count at one offset: cohort members whose `joined_at`
parses and is `≤ period_start` and whose `exited_at` is null or parses
and is `≥ period_end`; a parse failure in either field skips the
member (`except: continue`). -/
def retainedCount (cms : List FMember) (ps pe : Date) : Nat :=
  (cms.filter (fun mem => match mem.joined_at, mem.exited_at with
    | TS.ok j, TS.null => dateLE j ps
    | TS.ok j, TS.ok e => dateLE j ps && dateLE pe e
    | _, _ => false)).length

/-- One `(month_n_count, month_n_pct)` pair of a cohort row: offset `0`
reports the cohort size and `round(100.0, 2)`; offset `n ≥ 1` reports
the retained count and `round(count / size * 100, 2)` (`0` in place of
the ratio when the cohort is empty, as in the source's guard). -/
def cohortEntry (y m : Int) (cms : List FMember) (n : Nat) : Nat × Nat × ℚ :=
  if n = 0 then (n, cms.length, round2 100)
  else
    let rc := retainedCount cms (firstOfMonthAdd y m (n : Int))
      (firstOfMonthAdd y m ((n : Int) + 1))
    (n, rc, round2 (if cms.length = 0 then 0 else (rc : ℚ) / (cms.length : ℚ) * 100))

/-- One row of `generate_cohort_retention_table`: offsets
`0 ≤ n < max_months` emitted while `period_start ≤ today` (the source
breaks as soon as `period_start > today`). -/
def cohortRow (y m : Int) (cms : List FMember) (today : Date) (maxMonths : Nat) :
    List (Nat × Nat × ℚ) :=
  ((List.range maxMonths).takeWhile
    (fun (n : ℕ) => dateLE (firstOfMonthAdd y m (n : Int)) today)).map
    (cohortEntry y m cms)

/-- The distinct cohort keys appearing among parseable `joined_at`
values. -/
def cohortKeys (members : List FMember) : List (Int × Int) :=
  (members.filterMap (fun mem => match mem.joined_at with
    | TS.ok d => some (d.year, d.month)
    | _ => none)).dedup

/-- `generate_cohort_retention_table(members, max_months)` from
`hud2.py` with `datetime.today()` threaded in as `today`: one row per
distinct cohort key (the source additionally sorts rows by cohort
month, an ordering on which the per-row content proved below does not
depend). -/
def generate_cohort_retention_table (members : List FMember) (today : Date)
    (maxMonths : Nat) : List ((Int × Int) × List (Nat × Nat × ℚ)) :=
  (cohortKeys members).map (fun k =>
    (k, cohortRow k.1 k.2 (cohortMembers members k.1 k.2) today maxMonths))

/-! ## Normalizer timestamp parsing (`hud2.py`, `parse_ts`) and the
monthly time-series builder (`hud2_charts.py`, `calculate_monthly_metrics`) -/

/-- Input to the normalizer's `parse_ts`: Python `None`, a numeric
epoch value, or a string. -/
inductive TSIn
  | null
  | num (n : Int)
  | str (s : String)
deriving DecidableEq, Repr

/-- `parse_ts(ts)` from `convert_member_to_hud2` in `hud2.py`,
parameterized over the library primitives it calls: `epochToDate`
models `datetime.utcfromtimestamp(·).date()` (after the source's
nanosecond rescale `ts / 1e9` for values above `1e12`), `isoParse`
models `datetime.fromisoformat(ts.replace("Z", "+00:00"))` with `none`
for a raise, and `toInt` models `int(ts)` with `none` for a raise; the
recursive `parse_ts(int(ts))` call is inlined.  Every failure path is
caught and returns `None`. -/
def parse_ts (epochToDate : Int → Date) (isoParse : String → Option Date)
    (toInt : String → Option Int) : TSIn → Option Date
  | TSIn.null => none
  | TSIn.num n => some (epochToDate (if n > 10 ^ 12 then n / 10 ^ 9 else n))
  | TSIn.str s =>
    match isoParse s with
    | some d => some d
    | none =>
      match toInt s with
      | some k => some (epochToDate (if k > 10 ^ 12 then k / 10 ^ 9 else k))
      | none => none

/-- `parse_date(date_str)` from `hud2_charts.py` on an already
classified field: `None` maps to `None`, a parsed value to itself, and
a string matching neither `"%Y-%m-%d"` nor `"%Y-%m-%d %H:%M:%S.%f"`
raises `ValueError` (the second `strptime` is outside any handler):
modelled as `Except.error`. -/
def parse_date : TS → Except Unit (Option Date)
  | TS.null => Except.ok none
  | TS.bad => Except.error ()
  | TS.ok d => Except.ok (some d)

/-- Python `min(a, b)` on two dates. -/
def dmin (a b : Date) : Date := if dateLE a b then a else b

/-- Days in a Gregorian calendar month, as used by
`(month_start + relativedelta(months=1)) - timedelta(days=1)`. -/
def daysInMonth (y m : Int) : Int :=
  if m = 2 then
    if (Int.emod y 4 = 0 ∧ Int.emod y 100 ≠ 0) ∨ Int.emod y 400 = 0 then 29 else 28
  else if m = 4 ∨ m = 6 ∨ m = 9 ∨ m = 11 then 30 else 31

/-- The month index of a date: months since year 0. -/
def monthIndexZ (d : Date) : Int := d.year * 12 + (d.month - 1)

/-- The first-of-month date of a month index. -/
def indexToFirst (t : Int) : Date := ⟨Int.ediv t 12, Int.emod t 12 + 1, 1⟩

/-- `month_range(start, end)` from `hud2_charts.py`: first-of-month
dates from `start.replace(day=1)` while `current <= end`, stepping by
`relativedelta(months=1)`; for dates with `day ≥ 1` the loop runs
exactly over the month indices from `start`'s to `end`'s. -/
def month_range (start finish : Date) : List Date :=
  (List.range (Int.toNat (monthIndexZ finish - monthIndexZ start + 1))).map
    (fun i => indexToFirst (monthIndexZ start + (i : Int)))

/-- A member after the builder's parse loop: `joined_at_dt` parsed,
`exited_at_dt` parsed or `None`. -/
structure PMember where
  joined : Date
  exited : Option Date
  mrr : ℚ
  price : ℚ
deriving DecidableEq, Repr

/-- One row of the monthly time-series. -/
structure MonthlyRow where
  community_slug : String
  month : Int × Int
  mrr : ℚ
  ltv : Option ℚ
  new_members : Nat
  acquisition_rate : ℚ
  churned_members : Nat
  churn_rate : ℚ
  price : ℚ
deriving DecidableEq, Repr

/-- The per-month body of `calculate_monthly_metrics`, for month start
`ms` (a first-of-month date): `month_end = (ms + 1 month) - 1 day`,
interval-membership tests for the start/end populations, and the
derived mrr/churn/ARPU/LTV/acquisition fields with their
division-by-zero sentinels. -/
def monthlyRow (slug : String) (pms : List PMember) (ms : Date) : MonthlyRow :=
  let me : Date := ⟨ms.year, ms.month, daysInMonth ms.year ms.month⟩
  let active_start := pms.filter (fun p => dateLE p.joined ms &&
    (match p.exited with | none => true | some e => dateLT ms e))
  let active_end := pms.filter (fun p => dateLE p.joined me &&
    (match p.exited with | none => true | some e => dateLT me e))
  let new_members := pms.filter (fun p =>
    decide (p.joined.year = ms.year ∧ p.joined.month = ms.month))
  let churned_members := pms.filter (fun p => match p.exited with
    | some e => decide (e.year = ms.year ∧ e.month = ms.month)
    | none => false)
  let mrr := (active_end.map (fun p => p.mrr)).sum
  let churn_rate := if active_start.length > 0 then
    (churned_members.length : ℚ) / (active_start.length : ℚ) else 0
  let paying := active_start.filter (fun p => decide (p.mrr > 0))
  let arpu := if paying.length > 0 then mrr / (paying.length : ℚ) else 0
  let ltv := if churn_rate > 0 then some (arpu / churn_rate) else none
  let acq_rate := if active_start.length > 0 then
    (new_members.length : ℚ) / (active_start.length : ℚ) else 0
  { community_slug := slug
    month := (ms.year, ms.month)
    mrr := mrr
    ltv := ltv
    new_members := new_members.length
    acquisition_rate := acq_rate
    churned_members := churned_members.length
    churn_rate := churn_rate
    price := (active_end.map (fun p => p.price)).sum }

/-- `calculate_monthly_metrics(members, community_slug)` from
`hud2_charts.py`, with `datetime.datetime.today()` threaded in as
`today`.  An empty member list returns `[]` early.  A member whose
`joined_at` or `exited_at` matches neither accepted format raises
`ValueError` in the parse loop; a member whose `joined_at` is null
survives parsing but then breaks `min(...)` over the joined dates
(`TypeError` comparing `None`, or `.replace` on `None` for a singleton):
both are `Except.error`.  Otherwise the range of months is walked and
one row is produced per month. -/
def calculate_monthly_metrics (members : List FMember) (slug : String)
    (today : Date) : Except Unit (List MonthlyRow) :=
  if members = [] then Except.ok []
  else if members.any (fun m =>
      decide (m.joined_at = TS.bad) || decide (m.exited_at = TS.bad)) then
    Except.error ()
  else if members.any (fun m => decide (m.joined_at = TS.null)) then
    Except.error ()
  else
    match members.filterMap (fun m => match m.joined_at with
      | TS.ok j => some (⟨j,
          (match m.exited_at with | TS.ok e => some e | _ => none),
          m.mrr, m.price⟩ : PMember)
      | _ => none) with
    | [] => Except.ok []
    | p :: rest =>
      let pms := p :: rest
      let min_join := rest.foldl (fun a q => dmin a q.joined) p.joined
      let max_exit := (pms.filterMap (fun q => q.exited)).foldl dmax today
      Except.ok ((month_range min_join max_exit).map (monthlyRow slug pms))

/-! ## Theorems: the claim verdicts and their witnesses -/

/-- C2 counterexample.  With `now = 100` (window start `70`): one member
who joined at day 40 and is still active, one who joined at day 40 and
exited exactly at the window start (counted by the source's closed
interval `days_ago_30 <= exited_at <= now`, but absent from the
denominator), and one who joined at day 90 and exited at day 95 (inside
the window, never in the start-of-window population).  The returned
rate is `2 / 1 * 100 = 200`, outside `[0, 100]`. -/
theorem churn_rate_can_exceed_100 :
    100 < churn_count_past_30
      [⟨some 40, none, "monthly"⟩, ⟨some 40, some 70, "monthly"⟩,
       ⟨some 90, some 95, "monthly"⟩] false 100 := by
  norm_num [churn_count_past_30, inStarting, inChurned, List.filter]

/-- C2 (amended): the 30-day churn rate is nonnegative, is `0` whenever
the start-of-window population is empty, and is at most `100` whenever
the churned count does not exceed the start-of-window count.  The
source's numerator uses the closed window `[now - 30, now]` and its
members need not belong to the denominator, so without that last
hypothesis the rate can exceed `100`. -/
theorem churn_count_past_30_range (members : List CMember) (noAnnual : Bool)
    (now : Int) :
    0 ≤ churn_count_past_30 members noAnnual now ∧
    ((members.filter (inStarting noAnnual (now - 30))).length = 0 →
      churn_count_past_30 members noAnnual now = 0) ∧
    ((members.filter (inChurned noAnnual (now - 30) now)).length ≤
        (members.filter (inStarting noAnnual (now - 30))).length →
      churn_count_past_30 members noAnnual now ≤ 100) := by
  unfold churn_count_past_30
  set s := (members.filter (inStarting noAnnual (now - 30))).length with hs
  set c := (members.filter (inChurned noAnnual (now - 30) now)).length with hc
  refine ⟨?_, ?_, ?_⟩
  · dsimp only
    split
    · exact le_refl 0
    · positivity
  · intro h
    dsimp only
    rw [if_pos h]
  · intro h
    dsimp only
    split
    · norm_num
    · rename_i hne
      have hspos : (0 : ℚ) < s := by
        exact_mod_cast Nat.pos_of_ne_zero hne
      have h1 : (c : ℚ) / s ≤ 1 :=
        (div_le_one hspos).mpr (by exact_mod_cast h)
      calc (c : ℚ) / s * 100 ≤ 1 * 100 :=
            mul_le_mul_of_nonneg_right h1 (by norm_num)
        _ = 100 := by norm_num

/-- Witness for C2 (amended): a single long-standing active member and
an empty churn set give a rate of `0`, which lies in `[0, 100]`. -/
theorem churn_count_past_30_range_witness :
    0 ≤ churn_count_past_30 [⟨some 40, none, "monthly"⟩] false 100 ∧
    churn_count_past_30 [⟨some 40, none, "monthly"⟩] false 100 ≤ 100 :=
  ⟨(churn_count_past_30_range [⟨some 40, none, "monthly"⟩] false 100).1,
   (churn_count_past_30_range [⟨some 40, none, "monthly"⟩] false 100).2.2
     (by decide)⟩

/-- C9 counterexample.  `L` holds one member who joined at day 90 and
exited at day 95: the start-of-window population of `L` is empty, so the
rate is the sentinel `0` even though a churn event happened.  Adding the
unaffected active member `m` (joined day 40, never exited) makes the
denominator `1` and the rate jumps from `0` to `100`: adding an
unaffected active member strictly increased the churn rate. -/
theorem churn_rate_not_monotone :
    churn_count_past_30 [⟨some 90, some 95, "monthly"⟩] false 100 <
      churn_count_past_30
        ([⟨some 90, some 95, "monthly"⟩] ++ [⟨some 40, none, "monthly"⟩])
        false 100 := by
  norm_num [churn_count_past_30, inStarting, inChurned, List.filter]

/-- C9 (amended): if `m` is in the start-of-window population, `m`'s
`exited_at` does not fall in the window, and the start-of-window
population of `L` is already nonempty, then appending `m` cannot
increase the 30-day churn rate.  The nonemptiness hypothesis is needed:
when the denominator of `L` is empty the rate is the sentinel `0`, and
adding `m` can raise it (see the counterexample). -/
theorem churn_count_past_30_monotone (members : List CMember) (m : CMember)
    (now : Int) (hm : inStarting false (now - 30) m = true)
    (hmc : inChurned false (now - 30) now m = false)
    (hne : (members.filter (inStarting false (now - 30))).length ≠ 0) :
    churn_count_past_30 (members ++ [m]) false now ≤
      churn_count_past_30 members false now := by
  unfold churn_count_past_30
  dsimp only
  rw [List.filter_append, List.filter_append]
  simp only [List.filter, hm, hmc]
  set s := (members.filter (inStarting false (now - 30))).length with hs
  set c := (members.filter (inChurned false (now - 30) now)).length with hc
  have hlen1 : (members.filter (inStarting false (now - 30)) ++ [m]).length
      = s + 1 := by simp [hs]
  have hlen2 : (members.filter (inChurned false (now - 30) now) ++
      ([] : List CMember)).length = c := by simp [hc]
  rw [hlen1, hlen2]
  have h1 : s + 1 ≠ 0 := Nat.succ_ne_zero s
  rw [if_neg h1, if_neg hne]
  have hspos : (0 : ℚ) < s := by
    exact_mod_cast Nat.pos_of_ne_zero hne
  have hs1pos : (0 : ℚ) < (s : ℚ) + 1 := by positivity
  have key : (c : ℚ) / ((s : ℚ) + 1) ≤ (c : ℚ) / s := by
    apply div_le_div_of_nonneg_left ?_ hspos ?_
    · positivity
    · linarith
  push_cast
  exact mul_le_mul_of_nonneg_right key (by norm_num)

/-- Witness for C9 (amended): appending a second unaffected active
member to a one-member active population keeps the rate at `0`. -/
theorem churn_count_past_30_monotone_witness :
    churn_count_past_30
        ([⟨some 40, none, "monthly"⟩] ++ [⟨some 50, none, "annual"⟩])
        false 100 ≤
      churn_count_past_30 [⟨some 40, none, "monthly"⟩] false 100 :=
  churn_count_past_30_monotone [⟨some 40, none, "monthly"⟩]
    ⟨some 50, none, "annual"⟩ 100 (by decide) (by decide) (by decide)

/-- Evaluation of `get_plan_type_price_and_mrr` when the lookup
succeeds: helper shared by the plan-resolution theorems. -/
theorem get_plan_type_price_and_mrr_found (s : String) (bp : BillingProduct)
    (tbl : List (String × BillingProduct)) (hs : s ≠ "") (ht : tbl ≠ [])
    (hlk : tbl.lookup s = some bp) :
    get_plan_type_price_and_mrr (some s) tbl =
      (let interval := bp.interval.getD "unknown"
       let plan_type :=
         if interval = "year" ∨ interval = "annual" then "annual"
         else if interval = "month" ∨ interval = "monthly" then "monthly"
         else if interval = "one_time" ∨ interval = "one-time" then "one_time"
         else "unknown"
       let price := bp.price.getD 0
       let mrr :=
         if plan_type = "annual" then price / 12
         else if plan_type = "monthly" then price
         else 0
       (plan_type, price, mrr)) := by
  simp only [get_plan_type_price_and_mrr]
  rw [if_pos ⟨hs, ht⟩, hlk]

/-- C1: plan, price and mrr are determined by the looked-up product's
interval — `year`/`annual` gives plan `annual` with `mrr = price / 12`;
`month`/`monthly` gives `monthly` with `mrr = price`;
`one_time`/`one-time` gives `one_time` with `mrr = 0`; any other
interval gives `unknown` with `mrr = 0` — and a missing, falsy or
unresolved `billing_product_id` (or an empty table) gives
`("unknown", 0, 0)`. -/
theorem plan_type_price_mrr_resolution (bpid : Option String)
    (tbl : List (String × BillingProduct)) :
    (∀ s bp, bpid = some s → s ≠ "" → tbl ≠ [] → tbl.lookup s = some bp →
      ((bp.interval.getD "unknown" = "year" ∨ bp.interval.getD "unknown" = "annual") →
        get_plan_type_price_and_mrr bpid tbl =
          ("annual", bp.price.getD 0, bp.price.getD 0 / 12)) ∧
      ((bp.interval.getD "unknown" = "month" ∨ bp.interval.getD "unknown" = "monthly") →
        get_plan_type_price_and_mrr bpid tbl =
          ("monthly", bp.price.getD 0, bp.price.getD 0)) ∧
      ((bp.interval.getD "unknown" = "one_time" ∨ bp.interval.getD "unknown" = "one-time") →
        get_plan_type_price_and_mrr bpid tbl = ("one_time", bp.price.getD 0, 0)) ∧
      (bp.interval.getD "unknown" ∉
          (["year", "annual", "month", "monthly", "one_time", "one-time"] : List String) →
        get_plan_type_price_and_mrr bpid tbl = ("unknown", bp.price.getD 0, 0))) ∧
    ((bpid = none ∨ ∃ s, bpid = some s ∧ (s = "" ∨ tbl = [] ∨ tbl.lookup s = none)) →
      get_plan_type_price_and_mrr bpid tbl = ("unknown", 0, 0)) := by
  constructor
  · rintro s bp rfl hs ht hlk
    rw [get_plan_type_price_and_mrr_found s bp tbl hs ht hlk]
    refine ⟨?_, ?_, ?_, ?_⟩
    · rintro (h | h) <;> simp [h]
    · rintro (h | h) <;> simp [h]
    · rintro (h | h) <;> simp [h]
    · intro h
      simp only [List.mem_cons, List.mem_singleton, not_or] at h
      obtain ⟨h1, h2, h3, h4, h5, h6⟩ := h
      simp [h1, h2, h3, h4, h5, h6]
  · rintro (rfl | ⟨s, rfl, (rfl | rfl | hlk)⟩)
    · rfl
    · simp [get_plan_type_price_and_mrr]
    · simp [get_plan_type_price_and_mrr]
    · simp only [get_plan_type_price_and_mrr]
      split
      · rw [hlk]
      · rfl

/-- Witness for C1: a product with interval `"year"` and price `120`
resolves to plan `annual`, price `120`, mrr `10`. -/
theorem plan_type_price_mrr_resolution_witness :
    get_plan_type_price_and_mrr (some "p1")
      [("p1", ⟨some "year", some 120⟩)] = ("annual", 120, 120 / 12) :=
  ((plan_type_price_mrr_resolution (some "p1")
      [("p1", ⟨some "year", some 120⟩)]).1 "p1" ⟨some "year", some 120⟩
    rfl (by decide) (by decide) rfl).1 (Or.inl rfl)

/-- C10: when the lookup succeeds but the product's price is not
parseable as a number, the returned member keeps the interval-resolved
plan type while price and mrr degrade to `0` — so plan `annual` or
`monthly` with price `0` is a possible output — whereas a missing
`billing_product_id` yields plan `unknown`. -/
theorem plan_kept_when_price_unparseable (s : String) (bp : BillingProduct)
    (tbl : List (String × BillingProduct)) (hs : s ≠ "") (ht : tbl ≠ [])
    (hlk : tbl.lookup s = some bp) (hbad : bp.price = none) :
    ((get_plan_type_price_and_mrr (some s) tbl).2.1 = 0 ∧
     (get_plan_type_price_and_mrr (some s) tbl).2.2 = 0) ∧
    ((bp.interval.getD "unknown" = "year" ∨ bp.interval.getD "unknown" = "annual") →
      (get_plan_type_price_and_mrr (some s) tbl).1 = "annual") ∧
    ((bp.interval.getD "unknown" = "month" ∨ bp.interval.getD "unknown" = "monthly") →
      (get_plan_type_price_and_mrr (some s) tbl).1 = "monthly") ∧
    ((bp.interval.getD "unknown" = "one_time" ∨ bp.interval.getD "unknown" = "one-time") →
      (get_plan_type_price_and_mrr (some s) tbl).1 = "one_time") ∧
    get_plan_type_price_and_mrr none tbl = ("unknown", 0, 0) := by
  rw [get_plan_type_price_and_mrr_found s bp tbl hs ht hlk]
  refine ⟨⟨?_, ?_⟩, ?_, ?_, ?_, rfl⟩
  · simp [hbad]
  · simp only [hbad, Option.getD_none]
    split
    · norm_num
    · split <;> simp
  · rintro (h | h) <;> simp [h]
  · rintro (h | h) <;> simp [h]
  · rintro (h | h) <;> simp [h]

/-- Witness for C10: an `annual`-interval product whose price fails to
parse yields the member `("annual", 0, 0)`. -/
theorem plan_kept_when_price_unparseable_witness :
    ((get_plan_type_price_and_mrr (some "p2")
        [("p2", ⟨some "annual", none⟩)]).2.1 = 0 ∧
     (get_plan_type_price_and_mrr (some "p2")
        [("p2", ⟨some "annual", none⟩)]).2.2 = 0) ∧
    (get_plan_type_price_and_mrr (some "p2")
        [("p2", ⟨some "annual", none⟩)]).1 = "annual" :=
  ⟨(plan_kept_when_price_unparseable "p2" ⟨some "annual", none⟩
      [("p2", ⟨some "annual", none⟩)] (by decide) (by decide) rfl rfl).1,
   (plan_kept_when_price_unparseable "p2" ⟨some "annual", none⟩
      [("p2", ⟨some "annual", none⟩)] (by decide) (by decide) rfl rfl).2.1
     (Or.inr rfl)⟩

/-- C4: with `churn_rate = 0` the projector returns `member_ceiling`,
`mrr_ceiling`, `potential_max_revenue`, `days_to_growth_ceiling`,
`days_to_member_ceiling` and `months_to_growth_ceiling` all as null; no
division is attempted on this branch. -/
theorem growth_metrics_zero_churn (current_members monthly_acquisition
    monthly_churn_count churn_rate average_price pg pm nm : ℝ)
    (h : churn_rate = 0) :
    (calculate_growth_metrics current_members monthly_acquisition
        monthly_churn_count churn_rate average_price pg pm nm).member_ceiling
        = none ∧
    (calculate_growth_metrics current_members monthly_acquisition
        monthly_churn_count churn_rate average_price pg pm nm).mrr_ceiling
        = none ∧
    (calculate_growth_metrics current_members monthly_acquisition
        monthly_churn_count churn_rate average_price pg pm nm).potential_max_revenue
        = none ∧
    (calculate_growth_metrics current_members monthly_acquisition
        monthly_churn_count churn_rate average_price pg pm nm).days_to_growth_ceiling
        = none ∧
    (calculate_growth_metrics current_members monthly_acquisition
        monthly_churn_count churn_rate average_price pg pm nm).days_to_member_ceiling
        = none ∧
    (calculate_growth_metrics current_members monthly_acquisition
        monthly_churn_count churn_rate average_price pg pm nm).months_to_growth_ceiling
        = none := by
  subst h
  simp [calculate_growth_metrics]

/-- Witness for C4 at a concrete input with zero churn rate. -/
theorem growth_metrics_zero_churn_witness :
    (calculate_growth_metrics 5 3 2 0 10 0.95 0.99 0).member_ceiling = none ∧
    (calculate_growth_metrics 5 3 2 0 10 0.95 0.99 0).mrr_ceiling = none ∧
    (calculate_growth_metrics 5 3 2 0 10 0.95 0.99 0).potential_max_revenue = none ∧
    (calculate_growth_metrics 5 3 2 0 10 0.95 0.99 0).days_to_growth_ceiling = none ∧
    (calculate_growth_metrics 5 3 2 0 10 0.95 0.99 0).days_to_member_ceiling = none ∧
    (calculate_growth_metrics 5 3 2 0 10 0.95 0.99 0).months_to_growth_ceiling = none :=
  growth_metrics_zero_churn 5 3 2 0 10 0.95 0.99 0 rfl

/-- C5 counterexample.  With ceiling `100` (acquisition `10`, churn rate
`1/10`), current members `98` and pct `0.95`: the target `95` is already
met (`98 ≥ 95`), yet the source only clamps at the *full* ceiling
(`98 < 100`), so it returns `-log(5/2) / (1/10) < 0` — a negative
months value, contradicting both the claimed clamp condition and the
claimed nonnegativity. -/
theorem time_to_pct_ceiling_can_be_negative :
    time_to_pct_ceiling 100 98 (1 / 10) (95 / 100) < 0 := by
  unfold time_to_pct_ceiling
  rw [if_neg (by norm_num), if_neg (by norm_num)]
  have hr : ((100 : ℝ) - 95 / 100 * 100) / (100 - 98) = 5 / 2 := by norm_num
  rw [hr]
  apply div_neg_of_neg_of_pos
  · exact neg_lt_zero.mpr (Real.log_pos (by norm_num))
  · norm_num

/-- C5 (amended): for `churn_rate > 0`, the time-to-pct-of-ceiling value
is `0` when the ceiling is `0` or the current count meets or exceeds the
*full* ceiling (not `pct`·ceiling as claimed), `0` when the log ratio is
`≤ 0`, and otherwise `-log((ceiling - pct·ceiling)/(ceiling - N₀)) /
churn_rate`; it is nonnegative whenever `N₀ ≤ pct·ceiling`, and the
days fields of the projector equal the months value times `30.44`.
When `pct·ceiling < N₀ < ceiling` the returned value can be negative
(see the counterexample). -/
theorem time_to_pct_ceiling_spec
    (member_ceiling current_members churn_rate pct : ℝ)
    (hchurn : 0 < churn_rate) :
    (member_ceiling = 0 ∨ current_members ≥ member_ceiling →
      time_to_pct_ceiling member_ceiling current_members churn_rate pct = 0) ∧
    ((member_ceiling - pct * member_ceiling) /
        (member_ceiling - current_members) ≤ 0 →
      time_to_pct_ceiling member_ceiling current_members churn_rate pct = 0) ∧
    (member_ceiling ≠ 0 → current_members < member_ceiling →
      0 < (member_ceiling - pct * member_ceiling) /
        (member_ceiling - current_members) →
      time_to_pct_ceiling member_ceiling current_members churn_rate pct =
        -Real.log ((member_ceiling - pct * member_ceiling) /
          (member_ceiling - current_members)) / churn_rate) ∧
    (current_members ≤ pct * member_ceiling →
      0 ≤ time_to_pct_ceiling member_ceiling current_members churn_rate pct) ∧
    (∀ cm ma mcc ap pm nm : ℝ,
      (calculate_growth_metrics cm ma mcc churn_rate ap pct pm nm).days_to_growth_ceiling
        = some (time_to_pct_ceiling (ma / churn_rate) cm churn_rate pct * 30.44) ∧
      (calculate_growth_metrics cm ma mcc churn_rate ap pct pm nm).months_to_growth_ceiling
        = some (time_to_pct_ceiling (ma / churn_rate) cm churn_rate pct) ∧
      (calculate_growth_metrics cm ma mcc churn_rate ap pct pm nm).days_to_member_ceiling
        = some (time_to_pct_ceiling (ma / churn_rate) cm churn_rate pm * 30.44)) := by
  refine ⟨?_, ?_, ?_, ?_, ?_⟩
  · intro h
    unfold time_to_pct_ceiling
    rw [if_pos h]
  · intro h
    unfold time_to_pct_ceiling
    by_cases hg : member_ceiling = 0 ∨ current_members ≥ member_ceiling
    · rw [if_pos hg]
    · rw [if_neg hg, if_pos h]
  · intro h1 h2 h3
    unfold time_to_pct_ceiling
    rw [if_neg (by push_neg; exact ⟨h1, h2⟩), if_neg (not_le.mpr h3)]
  · intro htarget
    unfold time_to_pct_ceiling
    by_cases hg : member_ceiling = 0 ∨ current_members ≥ member_ceiling
    · rw [if_pos hg]
    · rw [if_neg hg]
      by_cases hr : (member_ceiling - pct * member_ceiling) /
          (member_ceiling - current_members) ≤ 0
      · rw [if_pos hr]
      · rw [if_neg hr]
        push_neg at hg hr
        have hden : 0 < member_ceiling - current_members :=
          sub_pos.mpr hg.2
        have hnum : member_ceiling - pct * member_ceiling ≤
            member_ceiling - current_members := by linarith
        have hle1 : (member_ceiling - pct * member_ceiling) /
            (member_ceiling - current_members) ≤ 1 :=
          (div_le_one hden).mpr hnum
        have hlog : Real.log ((member_ceiling - pct * member_ceiling) /
            (member_ceiling - current_members)) ≤ 0 :=
          Real.log_nonpos (le_of_lt hr) hle1
        exact div_nonneg (neg_nonneg.mpr hlog) (le_of_lt hchurn)
  · intro cm ma mcc ap pm nm
    simp [calculate_growth_metrics, ne_of_gt hchurn]

/-- Witness for C5 (amended): with ceiling `1`, no current members,
churn rate `1` and pct `0.95` the months value is nonnegative. -/
theorem time_to_pct_ceiling_spec_witness :
    0 ≤ time_to_pct_ceiling 1 0 1 (95 / 100) :=
  (time_to_pct_ceiling_spec 1 0 1 (95 / 100) (by norm_num)).2.2.2.1
    (by norm_num)

/-- C3: an annual member active at some point in the current year
contributes the full price exactly once; a non-annual member with zero
mrr contributes nothing; every other recurring member contributes
`mrr × month_count` following the four-case table — joined before this
year and still active → current month number; joined before this year
and exited this year → exit month number; joined and exited this year →
`exited_month - joined_month + 1`; joined this year and still active →
`current_month - joined_month + 1` — and a single annual member with
price `1200` active all year yields a total of `1200`. -/
theorem total_rev_ytd_cases (now : Date) (m : Member) (j : Date)
    (hj : m.joined_at = some j) (hnm : 0 ≤ now.month) :
    (m.plan_type = "annual" → dateLE j now = true →
      (m.exited_at = none ∨
        ∃ e, m.exited_at = some e ∧ dateLE ⟨now.year, 1, 1⟩ e = true) →
      ytdContribution now m = m.price) ∧
    (m.plan_type ≠ "annual" → m.mrr = 0 → ytdContribution now m = 0) ∧
    (m.plan_type ≠ "annual" → m.exited_at = none → j.year < now.year →
      ytdContribution now m = m.mrr * (now.month : ℚ)) ∧
    (∀ e, m.plan_type ≠ "annual" → m.exited_at = some e →
      e.year = now.year → j.year < now.year → 0 ≤ e.month →
      ytdContribution now m = m.mrr * (e.month : ℚ)) ∧
    (∀ e, m.plan_type ≠ "annual" → m.exited_at = some e →
      e.year = now.year → j.year = now.year → dateLE j e = true →
      ytdContribution now m = m.mrr * ((e.month - j.month + 1 : ℤ) : ℚ)) ∧
    (m.plan_type ≠ "annual" → m.exited_at = none → j.year = now.year →
      dateLE j now = true →
      ytdContribution now m = m.mrr * ((now.month - j.month + 1 : ℤ) : ℚ)) ∧
    get_total_rev_ytd_recurring_only
      [⟨some ⟨2023, 1, 15⟩, none, 100, 1200, "annual"⟩] ⟨2024, 10, 1⟩ = 1200 := by
  refine ⟨?_, ?_, ?_, ?_, ?_, ?_, ?_⟩
  · intro hplan hjn hact
    rcases hact with hex | ⟨e, hex, he⟩
    · simp [ytdContribution, hj, hplan, hjn, hex]
    · simp [ytdContribution, hj, hplan, hjn, hex, he]
  · intro hplan hmrr
    simp [ytdContribution, hj, hplan, hmrr]
  · intro hplan hex hlt
    by_cases hmrr : m.mrr = 0
    · simp [ytdContribution, hj, hplan, hex, hmrr]
    · have hjf : dateLE j ⟨now.year, 1, 1⟩ = true := by
        simp [dateLE]; omega
      simp [ytdContribution, hj, hplan, hex, hmrr, dmax, hjf, hlt,
        ne_of_lt hlt, lt_irrefl, max_eq_right hnm]
  · intro e hplan hex he hlt hem
    by_cases hmrr : m.mrr = 0
    · simp [ytdContribution, hj, hplan, hmrr]
    · have hjf : dateLE j ⟨now.year, 1, 1⟩ = true := by
        simp [dateLE]; omega
      simp [ytdContribution, hj, hplan, hex, he, hmrr, dmax, hjf, hlt,
        ne_of_lt hlt, lt_irrefl, max_eq_right hem]
  · intro e hplan hex he hjy hje
    by_cases hmrr : m.mrr = 0
    · simp [ytdContribution, hj, hplan, hmrr]
    · have hjm : j.month ≤ e.month := by
        simp [dateLE] at hje
        omega
      have hsy : (dmax j ⟨now.year, 1, 1⟩).year = now.year := by
        unfold dmax
        split <;> simp [hjy]
      have hmx : max 0 (e.month - j.month + 1) = e.month - j.month + 1 :=
        max_eq_right (by omega)
      simp [ytdContribution, hj, hplan, hex, he, hjy, hmrr, hsy, lt_irrefl, hmx]
  · intro hplan hex hjy hjn
    by_cases hmrr : m.mrr = 0
    · simp [ytdContribution, hj, hplan, hmrr]
    · have hjm : j.month ≤ now.month := by
        simp [dateLE] at hjn
        omega
      have hsy : (dmax j ⟨now.year, 1, 1⟩).year = now.year := by
        unfold dmax
        split <;> simp [hjy]
      have hmx : max 0 (now.month - j.month + 1) = now.month - j.month + 1 :=
        max_eq_right (by omega)
      simp [ytdContribution, hj, hplan, hex, hjy, hmrr, hsy, lt_irrefl, hmx]
  · norm_num [get_total_rev_ytd_recurring_only, ytdContribution, dateLE]

/-- Witness for C3: the spec's worked example — one annual member,
price `1200`, active all of 2024 — gives `TotalRevenueYTD = 1200`. -/
theorem total_rev_ytd_cases_witness :
    get_total_rev_ytd_recurring_only
      [⟨some ⟨2023, 1, 15⟩, none, 100, 1200, "annual"⟩] ⟨2024, 10, 1⟩ = 1200 :=
  (total_rev_ytd_cases ⟨2024, 10, 1⟩
      ⟨some ⟨2023, 1, 15⟩, none, 100, 1200, "annual"⟩ ⟨2023, 1, 15⟩ rfl
      (by norm_num)).2.2.2.2.2.2

/-- Helper: membership in `takeWhile` implies membership in the list. -/
theorem mem_of_mem_takeWhile {α : Type} {p : α → Bool} {l : List α} {a : α}
    (h : a ∈ l.takeWhile p) : a ∈ l := by
  induction l with
  | nil => simp at h
  | cons x xs ih =>
    rw [List.takeWhile_cons] at h
    by_cases hp : p x = true
    · rw [if_pos hp] at h
      rcases List.mem_cons.mp h with rfl | h2
      · exact List.mem_cons_self _ _
      · exact List.mem_cons_of_mem _ (ih h2)
    · simp [hp] at h

/-- Helper: the first component of a cohort entry is its offset. -/
theorem cohortEntry_fst (y m : Int) (cms : List FMember) (n : ℕ) :
    (cohortEntry y m cms n).1 = n := by
  unfold cohortEntry
  split
  · rfl
  · rfl

/-- Helper: `round(100.0, 2) = 100.0`. -/
theorem round2_100 : round2 100 = 100 := by
  have hf : Int.floor ((100 : ℚ) * 100) = 10000 := by
    rw [Int.floor_eq_iff]
    norm_num
  unfold round2 roundHalfEven
  rw [hf]
  norm_num

/-- Helper: `round(1/3 * 100, 2) = 33.33`. -/
theorem round2_third : round2 ((1 : ℚ) / 3 * 100) = 3333 / 100 := by
  have hf : Int.floor ((1 : ℚ) / 3 * 100 * 100) = 3333 := by
    rw [Int.floor_eq_iff]
    norm_num
  unfold round2 roundHalfEven
  rw [hf]
  norm_num

/-- C6 counterexample.  A January-2024 cohort of three members of which
one is retained at offset 1: the emitted `month_1_pct` is the rounded
`33.33`, strictly below the exact `1/3 × 100` the claim specifies. -/
theorem cohort_pct_is_rounded :
    (cohortRow 2024 1
      (cohortMembers
        [⟨TS.ok ⟨2024, 1, 5⟩, TS.null, 10, 10⟩,
         ⟨TS.ok ⟨2024, 1, 5⟩, TS.ok ⟨2024, 1, 20⟩, 10, 10⟩,
         ⟨TS.ok ⟨2024, 1, 5⟩, TS.ok ⟨2024, 1, 20⟩, 10, 10⟩] 2024 1)
      ⟨2024, 12, 31⟩ 6).get? 1 = some (1, 1, round2 ((1 : ℚ) / 3 * 100)) ∧
    round2 ((1 : ℚ) / 3 * 100) < (1 : ℚ) / 3 * 100 := by
  constructor
  · have htw : (List.range 6).takeWhile
        (fun (n : ℕ) => dateLE (firstOfMonthAdd 2024 1 (n : Int)) ⟨2024, 12, 31⟩) =
        [0, 1, 2, 3, 4, 5] := by decide
    unfold cohortRow
    rw [htw]
    simp only [List.map_cons, List.get?]
    unfold cohortEntry
    rw [if_neg (by norm_num)]
    have hrc : retainedCount
        (cohortMembers
          [⟨TS.ok ⟨2024, 1, 5⟩, TS.null, 10, 10⟩,
           ⟨TS.ok ⟨2024, 1, 5⟩, TS.ok ⟨2024, 1, 20⟩, 10, 10⟩,
           ⟨TS.ok ⟨2024, 1, 5⟩, TS.ok ⟨2024, 1, 20⟩, 10, 10⟩] 2024 1)
        (firstOfMonthAdd 2024 1 ((1 : ℕ) : Int))
        (firstOfMonthAdd 2024 1 (((1 : ℕ) : Int) + 1)) = 1 := by decide
    have hlen : (cohortMembers
        [⟨TS.ok ⟨2024, 1, 5⟩, TS.null, 10, 10⟩,
         ⟨TS.ok ⟨2024, 1, 5⟩, TS.ok ⟨2024, 1, 20⟩, 10, 10⟩,
         ⟨TS.ok ⟨2024, 1, 5⟩, TS.ok ⟨2024, 1, 20⟩, 10, 10⟩] 2024 1).length = 3 := by
      decide
    rw [hrc, hlen]
    norm_num
  · rw [round2_third]
    norm_num

/-- C6 (amended): for every nonempty cohort `(y, m)` of a member list,
every emitted row entry has `period_start ≤ today` and offset `< 6`;
the offset-0 entry reports the cohort size and exactly `100.0`; each
entry at offset `n ≥ 1` reports the retained count over
`[cohort_start + n months, cohort_start + (n+1) months)` and that count
over the cohort size times `100`, rounded to two decimals (the source
stores `round(pct, 2)`, not the exact ratio); and when `cohort_start ≤
today` the first emitted entry is the offset-0 one. -/
theorem cohort_row_spec (members : List FMember) (today : Date) (y m : Int)
    (h : cohortMembers members y m ≠ []) :
    (∀ p ∈ cohortRow y m (cohortMembers members y m) today 6,
      dateLE (firstOfMonthAdd y m (p.1 : Int)) today = true ∧ p.1 < 6) ∧
    (∀ p ∈ cohortRow y m (cohortMembers members y m) today 6, p.1 = 0 →
      p.2.1 = (cohortMembers members y m).length ∧ p.2.2 = 100) ∧
    (∀ p ∈ cohortRow y m (cohortMembers members y m) today 6, 1 ≤ p.1 →
      p.2.1 = retainedCount (cohortMembers members y m)
          (firstOfMonthAdd y m (p.1 : Int)) (firstOfMonthAdd y m ((p.1 : Int) + 1)) ∧
      p.2.2 = round2 ((retainedCount (cohortMembers members y m)
          (firstOfMonthAdd y m (p.1 : Int)) (firstOfMonthAdd y m ((p.1 : Int) + 1)) : ℚ) /
          ((cohortMembers members y m).length : ℚ) * 100)) ∧
    (dateLE (firstOfMonthAdd y m 0) today = true →
      (cohortRow y m (cohortMembers members y m) today 6).head? =
        some (0, (cohortMembers members y m).length, 100)) := by
  refine ⟨?_, ?_, ?_, ?_⟩
  · intro p hp
    obtain ⟨n, hn, rfl⟩ := List.mem_map.mp hp
    rw [cohortEntry_fst]
    refine ⟨?_, List.mem_range.mp (mem_of_mem_takeWhile hn)⟩
    have h2 := List.mem_takeWhile_imp hn
    simpa using h2
  · intro p hp h0
    obtain ⟨n, hn, rfl⟩ := List.mem_map.mp hp
    rw [cohortEntry_fst] at h0
    subst h0
    unfold cohortEntry
    rw [if_pos rfl]
    exact ⟨rfl, round2_100⟩
  · intro p hp h1
    obtain ⟨n, hn, rfl⟩ := List.mem_map.mp hp
    rw [cohortEntry_fst] at h1
    unfold cohortEntry
    rw [if_neg (Nat.pos_iff_ne_zero.mp h1)]
    dsimp only
    rw [if_neg (fun hc => h (List.length_eq_zero.mp hc))]
    exact ⟨rfl, rfl⟩
  · intro h0
    unfold cohortRow
    rw [show List.range 6 = 0 :: [1, 2, 3, 4, 5] from rfl]
    rw [List.takeWhile_cons, if_pos (by simpa using h0)]
    simp only [List.map_cons, List.head?]
    unfold cohortEntry
    rw [if_pos rfl, round2_100]

/-- Witness for C6 (amended): a one-member January-2024 cohort viewed
at end of 2024 starts with the offset-0 entry `(0, 1, 100.0)`. -/
theorem cohort_row_spec_witness :
    (cohortRow 2024 1
      (cohortMembers [⟨TS.ok ⟨2024, 1, 5⟩, TS.null, 10, 10⟩] 2024 1)
      ⟨2024, 12, 31⟩ 6).head? =
      some (0, (cohortMembers [⟨TS.ok ⟨2024, 1, 5⟩, TS.null, 10, 10⟩] 2024 1).length,
        100) :=
  (cohort_row_spec [⟨TS.ok ⟨2024, 1, 5⟩, TS.null, 10, 10⟩] ⟨2024, 12, 31⟩ 2024 1
    (by decide)).2.2.2 (by decide)

/-- C7 counterexample.  A population of one perfectly well-formed
member plus one member whose `joined_at` is null: the monthly
time-series builder raises (`TypeError`/`AttributeError` around
`min(...)`) instead of degrading the bad member, aborting the
computation for the whole population. -/
theorem monthly_metrics_aborts_on_null_join :
    calculate_monthly_metrics
      [⟨TS.ok ⟨2024, 1, 1⟩, TS.null, 10, 10⟩, ⟨TS.null, TS.null, 0, 0⟩]
      "c" ⟨2024, 6, 1⟩ = Except.error () := by
  rfl

/-- C7 (amended): the normalizer's `parse_ts` degrades a null input and
a string that both of its fallback parsers reject to `None` without
raising; the monthly time-series builder, however, only succeeds when
every member's `joined_at` parses and no `exited_at` is malformed — on
such input it returns a row list, while a null or unparseable
`joined_at` (or unparseable `exited_at`) on any single member aborts
the whole computation (see the counterexample). -/
theorem parse_degradation (epochToDate : Int → Date)
    (isoParse : String → Option Date) (toInt : String → Option Int)
    (s : String) (h1 : isoParse s = none) (h2 : toInt s = none)
    (members : List FMember) (slug : String) (today : Date)
    (hgood : ∀ mem ∈ members, mem.joined_at ≠ TS.bad ∧
      mem.joined_at ≠ TS.null ∧ mem.exited_at ≠ TS.bad) :
    parse_ts epochToDate isoParse toInt TSIn.null = none ∧
    parse_ts epochToDate isoParse toInt (TSIn.str s) = none ∧
    ∃ rows, calculate_monthly_metrics members slug today = Except.ok rows := by
  refine ⟨rfl, ?_, ?_⟩
  · simp [parse_ts, h1, h2]
  · unfold calculate_monthly_metrics
    by_cases hmem : members = []
    · rw [if_pos hmem]
      exact ⟨[], rfl⟩
    · rw [if_neg hmem]
      have hb : (members.any (fun m =>
          decide (m.joined_at = TS.bad) || decide (m.exited_at = TS.bad))) = false := by
        rw [List.any_eq_false]
        intro x hx
        obtain ⟨ha, _, hc⟩ := hgood x hx
        simp [ha, hc]
      have hn : (members.any (fun m => decide (m.joined_at = TS.null))) = false := by
        rw [List.any_eq_false]
        intro x hx
        obtain ⟨_, hb', _⟩ := hgood x hx
        simp [hb']
      rw [if_neg (by rw [hb]; exact Bool.false_ne_true),
        if_neg (by rw [hn]; exact Bool.false_ne_true)]
      rcases hpm : members.filterMap (fun m => match m.joined_at with
        | TS.ok j => some (⟨j,
            (match m.exited_at with | TS.ok e => some e | _ => none),
            m.mrr, m.price⟩ : PMember)
        | _ => none) with _ | ⟨p, rest⟩
      · rw [hpm]
        exact ⟨[], rfl⟩
      · rw [hpm]
        exact ⟨_, rfl⟩

/-- Witness for C7 (amended): with parsers that reject `"garbage"`,
`parse_ts` returns `None` for it, and the builder succeeds on a
single well-formed member. -/
theorem parse_degradation_witness :
    parse_ts (fun _ => ⟨1970, 1, 1⟩) (fun _ => none) (fun _ => none)
      (TSIn.str "garbage") = none ∧
    ∃ rows, calculate_monthly_metrics
      [⟨TS.ok ⟨2024, 1, 1⟩, TS.null, 10, 10⟩] "c" ⟨2024, 6, 1⟩ =
        Except.ok rows :=
  ⟨(parse_degradation (fun _ => ⟨1970, 1, 1⟩) (fun _ => none) (fun _ => none)
      "garbage" rfl rfl [⟨TS.ok ⟨2024, 1, 1⟩, TS.null, 10, 10⟩] "c"
      ⟨2024, 6, 1⟩ (by decide)).2.1,
   (parse_degradation (fun _ => ⟨1970, 1, 1⟩) (fun _ => none) (fun _ => none)
      "garbage" rfl rfl [⟨TS.ok ⟨2024, 1, 1⟩, TS.null, 10, 10⟩] "c"
      ⟨2024, 6, 1⟩ (by decide)).2.2⟩
